import Mathlib

/-!
Shallow embedding of the `couchdb_api` Python library: the status-code
message resolution layer (`couchdb_api/utils/status_code_message.py`),
the call layer (`couchdb_api/calls.py`) and the record types
(`couchdb_api/structures.py`), together with theorems settling the
specification claims about them.
-/

namespace CouchDBApi

/-- An HTTP request, as seen by the status-message layer: the method and
the URL path of the originating request (`response.request.method`,
`response.request.url.path` in the source). -/
structure Request where
  method : String
  urlPath : String
deriving Repr, DecidableEq

/-- An HTTP response: the originating request, the numeric status code,
and the response body text.  The body is irrelevant to the status-message
layer; it is carried so that independence from it is provable. -/
structure Response where
  request : Request
  status_code : Int
  bodyText : String
deriving Repr, DecidableEq

/-- `tuple(part for part in path.split('/') if part != '')`: the non-empty
segments of a URL path.  Python's `split('/')` on the underlying character
sequence is `List.splitOn '/'` (both yield the list of runs between
separator occurrences, with a single empty run for the empty string). -/
def url_path_parts (path : String) : List String :=
  ((path.data.splitOn '/').map String.mk).filter (fun part => part ≠ "")

/-- `get_db_doc_status_code_message`: status-code table for
`GET /{db}/{docid}`. -/
def get_db_doc_status_code_message (status_code : Int) : Option String :=
  match status_code with
  | 200 => some "Request completed successfully."
  | 304 => some "Document wasn’t modified since specified revision."
  | 400 => some "The format of the request or revision was invalid."
  | 401 => some "Read privilege required."
  | 404 => some "Document not found."
  | _ => none

/-- `put_db_doc_status_code_message`: status-code table for
`PUT /{db}/{docid}`. -/
def put_db_doc_status_code_message (status_code : Int) : Option String :=
  match status_code with
  | 201 => some "Document created and stored on disk."
  | 202 => some "Document data accepted, but not yet stored on disk."
  | 400 => some "Invalid request body or parameters."
  | 401 => some "Write privileges required."
  | 404 => some "Specified database or document ID doesn’t exists."
  | 409 => some "Document with the specified ID already exists or specified revision is not latest for target document."
  | _ => none

/-- `delete_db_doc_status_code_message`: status-code table for
`DELETE /{db}/{docid}`. -/
def delete_db_doc_status_code_message (status_code : Int) : Option String :=
  match status_code with
  | 200 => some "Document successfully removed."
  | 202 => some "Request was accepted, but changes are not yet stored on disk."
  | 400 => some "Invalid request body or parameters."
  | 401 => some "Write privileges required."
  | 404 => some "Specified database or document ID doesn’t exists."
  | 409 => some "Specified revision is not the latest for target document."
  | _ => none

/-- `db_put_status_code_message`: status-code table for `PUT /{db}`. -/
def db_put_status_code_message (status_code : Int) : Option String :=
  match status_code with
  | 201 => some "Database created successfully (quorum is met)."
  | 202 => some "Accepted (at least by one node)."
  | 400 => some "Invalid database name."
  | 401 => some "CouchDB Server Administrator privileges required."
  | 412 => some "Database already exists."
  | _ => none

/-- `db_post_status_code_message`: status-code table for `POST /{db}`. -/
def db_post_status_code_message (status_code : Int) : Option String :=
  match status_code with
  | 201 => some "Document created and stored on disk."
  | 202 => some "Document data accepted, but not yet stored on disk."
  | 400 => some "Invalid database name."
  | 401 => some "Write privileges required."
  | 404 => some "Database doesn’t exist."
  | 409 => some "A Conflicting Document with same ID already exists."
  | _ => none

/-- `db_find_status_code_message`: status-code table for
`POST /{db}/_find`. -/
def db_find_status_code_message (status_code : Int) : Option String :=
  match status_code with
  | 200 => some "Request completed successfully."
  | 400 => some "Invalid request."
  | 401 => some "Read permission required."
  | 404 => some "Requested database not found."
  | _ => none

/-- `db_all_docs_status_code_message`: status-code table for
`GET /{db}/_all_docs`. -/
def db_all_docs_status_code_message (status_code : Int) : Option String :=
  match status_code with
  | 200 => some "Request completed successfully."
  | 404 => some "Requested database not found."
  | _ => none

/-- `db_bulk_docs_status_code_message`: status-code table for
`POST /{db}/_bulk_docs`. -/
def db_bulk_docs_status_code_message (status_code : Int) : Option String :=
  match status_code with
  | 201 => some "Document(s) have been created or updated."
  | 400 => some "The request provided invalid JSON data."
  | 404 => some "Requested database not found."
  | _ => none

/-- `all_dbs_status_code_message`: status-code table for `GET /_all_dbs`. -/
def all_dbs_status_code_message (status_code : Int) : Option String :=
  match status_code with
  | 200 => some "Request completed successfully."
  | _ => none

/-- `put_design_doc_status_code_message`: delegates to the
`PUT /{db}/{docid}` table. -/
def put_design_doc_status_code_message (status_code : Int) : Option String :=
  put_db_doc_status_code_message status_code

/-- `put_db_security_status_code_message`: status-code table for
`PUT /{db}/_security`. -/
def put_db_security_status_code_message (status_code : Int) : Option String :=
  match status_code with
  | 200 => some "Request completed successfully."
  | 401 => some "CouchDB Server Administrator privileges required."
  | _ => none

/-- `status_code_message_from_response`: dispatch on the request method,
then on the number of non-empty path segments, then on reserved segment
names, to one of the fixed status-code tables.  A branch of the Python
source that reaches no `return` statement returns `None`; those fall
throughs are the `none` catch-alls here. -/
def status_code_message_from_response (response : Response) : Option String :=
  match response.request.method with
  | "GET" =>
    match url_path_parts response.request.urlPath with
    | [p0] =>
      match p0 with
      | "_all_dbs" => all_dbs_status_code_message response.status_code
      | _ => none
    | [_, p1] =>
      match p1 with
      | "_all_docs" => all_dbs_status_code_message response.status_code
      | _ => get_db_doc_status_code_message response.status_code
    | _ => none
  | "PUT" =>
    match url_path_parts response.request.urlPath with
    | [_] => db_put_status_code_message response.status_code
    | [_, p1] =>
      match p1 with
      | "_security" => put_db_security_status_code_message response.status_code
      | _ => put_db_doc_status_code_message response.status_code
    | [_, p1, _] =>
      match p1 with
      | "_design" => put_design_doc_status_code_message response.status_code
      | _ => none
    | _ => none
  | "POST" =>
    match url_path_parts response.request.urlPath with
    | [_] => db_post_status_code_message response.status_code
    | [_, p1] =>
      match p1 with
      | "_bulk_docs" => db_bulk_docs_status_code_message response.status_code
      | "_find" => db_find_status_code_message response.status_code
      | _ => none
    | _ => none
  | "DELETE" =>
    match url_path_parts response.request.urlPath with
    | [_, _] => delete_db_doc_status_code_message response.status_code
    | _ => none
  | _ => none

/-- An error raised by the error-raising wrapper: either a
`CouchDBHTTPStatusError` carrying a looked-up message, or the underlying
generic `HTTPStatusError`.  Both carry the request and the response. -/
inductive RaisedError where
  | couchDBHTTPStatusError (message : String) (request : Request) (response : Response)
  | httpStatusError (request : Request) (response : Response)
deriving Repr, DecidableEq

/-- Modelled from the spec: the underlying HTTP client's standard
`raise_for_status` check (the `httpx` library, outside this repository),
described as "raise on non-2xx": it raises a generic `HTTPStatusError`
carrying the request and response exactly when the status code is not in
the 2xx success range. -/
def raise_for_status (response : Response) : Except RaisedError Unit :=
  if 200 ≤ response.status_code ∧ response.status_code < 300 then
    Except.ok ()
  else
    Except.error (RaisedError.httpStatusError response.request response)

/-- `raise_from_status_with_status_code_message`: run the client's
`raise_for_status`; on an `HTTPStatusError`, look up a message and
re-raise a `CouchDBHTTPStatusError` with it when the lookup is truthy
(Python: `if message := ...`, so a `None` or an empty string both fall to
re-raising the original error). -/
def raise_from_status_with_status_code_message (response : Response) :
    Except RaisedError Unit :=
  match raise_for_status response with
  | Except.ok () => Except.ok ()
  | Except.error e =>
    match e with
    | RaisedError.httpStatusError req resp =>
      match status_code_message_from_response response with
      | some message =>
        if message = "" then
          Except.error (RaisedError.httpStatusError req resp)
        else
          Except.error (RaisedError.couchDBHTTPStatusError message req resp)
      | none => Except.error e
    | _ => Except.error e

/-! The call layer (`couchdb_api/calls.py`).  A request handed to the
HTTP client is a method, a URL, optional query parameters and an optional
JSON body; the client itself is an externally supplied function from such
a request to a caller-chosen result type, so a call function that issues
exactly one request and returns the client's result unchanged is one that
equals `client` applied to one concrete `ClientRequest`. -/

/-- A JSON value (`str | int | float | bool | None | Mapping | list`,
with numbers modelled as integers; object key order is kept, as Python
dicts keep insertion order). -/
inductive JSON where
  | str : String → JSON
  | num : Int → JSON
  | bool : Bool → JSON
  | null : JSON
  | obj : List (String × JSON) → JSON
  | arr : List JSON → JSON
deriving Repr

/-- A request as handed to the HTTP client's verb method: the verb, the
interpolated URL, the forwarded query parameters and the JSON body. -/
structure ClientRequest where
  method : String
  url : String
  params : Option (List (String × String)) := none
  json : Option JSON := none
  data : Option (List Nat) := none
deriving Repr

/-- `get_db_doc`: `client.get(f'/{db}/{docid}', params=params)`. -/
def get_db_doc {R : Type} (client : ClientRequest → R) (db docid : String)
    (params : Option (List (String × String))) : R :=
  client { method := "GET", url := "/" ++ db ++ "/" ++ docid, params := params }

/-- `put_db_doc`: `client.put(url=f'/{db}/{docid}', json=body, params=params)`. -/
def put_db_doc {R : Type} (client : ClientRequest → R) (db docid : String)
    (body : JSON) (params : Option (List (String × String))) : R :=
  client { method := "PUT", url := "/" ++ db ++ "/" ++ docid, params := params,
           json := some body }

/-- `delete_db_doc`: `client.delete(url=f'/{db}/{docid}', params=params)`. -/
def delete_db_doc {R : Type} (client : ClientRequest → R) (db docid : String)
    (params : Option (List (String × String))) : R :=
  client { method := "DELETE", url := "/" ++ db ++ "/" ++ docid, params := params }

/-- `db_put`: `client.put(url=f'/{db}', params=params)`. -/
def db_put {R : Type} (client : ClientRequest → R) (db : String)
    (params : Option (List (String × String))) : R :=
  client { method := "PUT", url := "/" ++ db, params := params }

/-- `db_post`: `client.post(url=f'/{db}', json=body)`. -/
def db_post {R : Type} (client : ClientRequest → R) (db : String) (body : JSON) : R :=
  client { method := "POST", url := "/" ++ db, json := some body }

/-- `db_find`: `client.post(url=f'/{db}/_find', json=body)`. -/
def db_find {R : Type} (client : ClientRequest → R) (db : String) (body : JSON) : R :=
  client { method := "POST", url := "/" ++ db ++ "/_find", json := some body }

/-- `db_all_docs`: `client.get(url=f'/{db}/_all_docs', params=params)`. -/
def db_all_docs {R : Type} (client : ClientRequest → R) (db : String)
    (params : Option (List (String × String))) : R :=
  client { method := "GET", url := "/" ++ db ++ "/_all_docs", params := params }

/-- `db_bulk_docs`:
`client.post(url=f'/{db}/_bulk_docs', json=dict(docs=documents, new_edits=new_edits))`. -/
def db_bulk_docs {R : Type} (client : ClientRequest → R) (db : String)
    (documents : List JSON) (new_edits : Bool) : R :=
  client { method := "POST", url := "/" ++ db ++ "/_bulk_docs",
           json := some (JSON.obj
             [("docs", JSON.arr documents), ("new_edits", JSON.bool new_edits)]) }

/-- `all_dbs`: `client.get(url='/_all_dbs', params=params)`. -/
def all_dbs {R : Type} (client : ClientRequest → R)
    (params : Option (List (String × String))) : R :=
  client { method := "GET", url := "/_all_dbs", params := params }

/-- `create_user`: delegates to `put_db_doc` with database `_users`,
document id `org.couchdb.user:{username}` and a constructed user object
(`roles or []` is the empty list when `roles` is `None` or empty). -/
def create_user {R : Type} (client : ClientRequest → R)
    (username password : String) (roles : Option (List String)) : R :=
  put_db_doc client "_users" ("org.couchdb.user:" ++ username)
    (JSON.obj
      [("name", JSON.str username),
       ("password", JSON.str password),
       ("roles", JSON.arr ((roles.getD []).map JSON.str)),
       ("type", JSON.str "user")])
    none

/-- `View` (a `TypedDict`): a view definition, `map` required, `reduce`
optional. -/
structure View where
  map : String
  reduce : Option String
deriving Repr, DecidableEq

/-- `ViewOption` (a `TypedDict`): design-document view options. -/
structure ViewOption where
  local_seq : Bool
  include_design : Bool
deriving Repr, DecidableEq

/-- `DesignDocument` (a `@dataclass`): every field optional, defaulting
to `None`, in the source's declaration order. -/
structure DesignDocument where
  language : Option String := none
  options : Option ViewOption := none
  filters : Option (List (String × String)) := none
  updates : Option (List (String × String)) := none
  validate_doc_update : Option String := none
  views : Option (List (String × View)) := none
  autoupdate : Option Bool := none
deriving Repr

/-- `SecurityObjectUserList` (a `@dataclass`): name and role lists. -/
structure SecurityObjectUserList where
  names : List String := []
  roles : List String := []
deriving Repr, DecidableEq

/-- `SecurityObject` (a `@dataclass`): member and admin user lists. -/
structure SecurityObject where
  members : SecurityObjectUserList
  admins : SecurityObjectUserList
deriving Repr, DecidableEq

/-- JSON serialization of a `View` value (a plain dict: `asdict` copies
it unchanged, a `None` `reduce` staying as JSON `null`). -/
def viewToJSON (v : View) : JSON :=
  JSON.obj
    [("map", JSON.str v.map),
     ("reduce", match v.reduce with | some s => JSON.str s | none => JSON.null)]

/-- JSON serialization of a `ViewOption` value (a plain dict). -/
def viewOptionToJSON (o : ViewOption) : JSON :=
  JSON.obj
    [("local_seq", JSON.bool o.local_seq),
     ("include_design", JSON.bool o.include_design)]

/-- JSON serialization of a string-to-string mapping. -/
def strMapToJSON (m : List (String × String)) : JSON :=
  JSON.obj (m.map (fun p => (p.1, JSON.str p.2)))

/-- The key-value pairs of
`asdict(design_document, dict_factory=lambda x: {k: v for (k, v) in x if v is not None})`:
`asdict` walks the dataclass fields in declaration order and the
`dict_factory` drops every pair whose value is `None`. -/
def designDocumentPairs (d : DesignDocument) : List (String × JSON) :=
  (match d.language with
   | some s => [("language", JSON.str s)]
   | none => []) ++
  (match d.options with
   | some o => [("options", viewOptionToJSON o)]
   | none => []) ++
  (match d.filters with
   | some f => [("filters", strMapToJSON f)]
   | none => []) ++
  (match d.updates with
   | some u => [("updates", strMapToJSON u)]
   | none => []) ++
  (match d.validate_doc_update with
   | some s => [("validate_doc_update", JSON.str s)]
   | none => []) ++
  (match d.views with
   | some v => [("views", JSON.obj (v.map (fun p => (p.1, viewToJSON p.2))))]
   | none => []) ++
  (match d.autoupdate with
   | some b => [("autoupdate", JSON.bool b)]
   | none => [])

/-- `put_design_doc`:
`client.put(url=f'/{db}/_design/{ddoc}', json=asdict(design_document, dict_factory=...))`. -/
def put_design_doc {R : Type} (client : ClientRequest → R) (db ddoc : String)
    (design_document : DesignDocument) : R :=
  client { method := "PUT", url := "/" ++ db ++ "/_design/" ++ ddoc,
           json := some (JSON.obj (designDocumentPairs design_document)) }

/-- JSON serialization of a `SecurityObjectUserList` (via `asdict`). -/
def securityObjectUserListToJSON (l : SecurityObjectUserList) : JSON :=
  JSON.obj
    [("names", JSON.arr (l.names.map JSON.str)),
     ("roles", JSON.arr (l.roles.map JSON.str))]

/-- `put_db_security`:
`client.put(url=f'/{db}/_security', json=asdict(security_object))`. -/
def put_db_security {R : Type} (client : ClientRequest → R) (db : String)
    (security_object : SecurityObject) : R :=
  client { method := "PUT", url := "/" ++ db ++ "/_security",
           json := some (JSON.obj
             [("members", securityObjectUserListToJSON security_object.members),
              ("admins", securityObjectUserListToJSON security_object.admins)]) }

/-- `put_attachment`:
`client.put(url=f'/{db}/{doc_id}/{attname}', data=data)`. -/
def put_attachment {R : Type} (client : ClientRequest → R)
    (db doc_id attname : String) (data : List Nat) : R :=
  client { method := "PUT", url := "/" ++ db ++ "/" ++ doc_id ++ "/" ++ attname,
           data := some data }

/-! Helper lemmas about the status-code tables. -/

theorem get_db_doc_message_ne_empty (c : Int) (m : String)
    (h : get_db_doc_status_code_message c = some m) : m ≠ "" := by
  unfold get_db_doc_status_code_message at h
  split at h <;>
    first
      | exact Option.noConfusion h
      | (injection h with h; subst h; decide)

theorem put_db_doc_message_ne_empty (c : Int) (m : String)
    (h : put_db_doc_status_code_message c = some m) : m ≠ "" := by
  unfold put_db_doc_status_code_message at h
  split at h <;>
    first
      | exact Option.noConfusion h
      | (injection h with h; subst h; decide)

theorem delete_db_doc_message_ne_empty (c : Int) (m : String)
    (h : delete_db_doc_status_code_message c = some m) : m ≠ "" := by
  unfold delete_db_doc_status_code_message at h
  split at h <;>
    first
      | exact Option.noConfusion h
      | (injection h with h; subst h; decide)

theorem db_put_message_ne_empty (c : Int) (m : String)
    (h : db_put_status_code_message c = some m) : m ≠ "" := by
  unfold db_put_status_code_message at h
  split at h <;>
    first
      | exact Option.noConfusion h
      | (injection h with h; subst h; decide)

theorem db_post_message_ne_empty (c : Int) (m : String)
    (h : db_post_status_code_message c = some m) : m ≠ "" := by
  unfold db_post_status_code_message at h
  split at h <;>
    first
      | exact Option.noConfusion h
      | (injection h with h; subst h; decide)

theorem db_find_message_ne_empty (c : Int) (m : String)
    (h : db_find_status_code_message c = some m) : m ≠ "" := by
  unfold db_find_status_code_message at h
  split at h <;>
    first
      | exact Option.noConfusion h
      | (injection h with h; subst h; decide)

theorem db_all_docs_message_ne_empty (c : Int) (m : String)
    (h : db_all_docs_status_code_message c = some m) : m ≠ "" := by
  unfold db_all_docs_status_code_message at h
  split at h <;>
    first
      | exact Option.noConfusion h
      | (injection h with h; subst h; decide)

theorem db_bulk_docs_message_ne_empty (c : Int) (m : String)
    (h : db_bulk_docs_status_code_message c = some m) : m ≠ "" := by
  unfold db_bulk_docs_status_code_message at h
  split at h <;>
    first
      | exact Option.noConfusion h
      | (injection h with h; subst h; decide)

theorem all_dbs_message_ne_empty (c : Int) (m : String)
    (h : all_dbs_status_code_message c = some m) : m ≠ "" := by
  unfold all_dbs_status_code_message at h
  split at h <;>
    first
      | exact Option.noConfusion h
      | (injection h with h; subst h; decide)

theorem put_db_security_message_ne_empty (c : Int) (m : String)
    (h : put_db_security_status_code_message c = some m) : m ≠ "" := by
  unfold put_db_security_status_code_message at h
  split at h <;>
    first
      | exact Option.noConfusion h
      | (injection h with h; subst h; decide)

theorem put_design_message_ne_empty (c : Int) (m : String)
    (h : put_design_doc_status_code_message c = some m) : m ≠ "" := by
  unfold put_design_doc_status_code_message at h
  exact put_db_doc_message_ne_empty c m h

/-- Every message the resolver can return is a non-empty string, so the
Python truthiness test `if message := ...` never discards a found one. -/
theorem status_code_message_ne_empty (r : Response) (m : String)
    (h : status_code_message_from_response r = some m) : m ≠ "" := by
  unfold status_code_message_from_response at h
  split at h <;> try exact Option.noConfusion h
  all_goals split at h <;> try exact Option.noConfusion h
  all_goals try (split at h <;> try exact Option.noConfusion h)
  all_goals
    first
      | exact get_db_doc_message_ne_empty _ _ h
      | exact put_db_doc_message_ne_empty _ _ h
      | exact delete_db_doc_message_ne_empty _ _ h
      | exact db_put_message_ne_empty _ _ h
      | exact db_post_message_ne_empty _ _ h
      | exact db_find_message_ne_empty _ _ h
      | exact db_all_docs_message_ne_empty _ _ h
      | exact db_bulk_docs_message_ne_empty _ _ h
      | exact all_dbs_message_ne_empty _ _ h
      | exact put_db_security_message_ne_empty _ _ h

/-- The status codes appearing in any of the lookup tables. -/
def documented_status_codes : List Int :=
  [200, 201, 202, 304, 400, 401, 404, 409, 412]

theorem get_db_doc_none_of_undocumented (c : Int)
    (h : c ∉ documented_status_codes) : get_db_doc_status_code_message c = none := by
  unfold get_db_doc_status_code_message
  split <;> simp_all [documented_status_codes]

theorem put_db_doc_none_of_undocumented (c : Int)
    (h : c ∉ documented_status_codes) : put_db_doc_status_code_message c = none := by
  unfold put_db_doc_status_code_message
  split <;> simp_all [documented_status_codes]

theorem delete_db_doc_none_of_undocumented (c : Int)
    (h : c ∉ documented_status_codes) : delete_db_doc_status_code_message c = none := by
  unfold delete_db_doc_status_code_message
  split <;> simp_all [documented_status_codes]

theorem db_put_none_of_undocumented (c : Int)
    (h : c ∉ documented_status_codes) : db_put_status_code_message c = none := by
  unfold db_put_status_code_message
  split <;> simp_all [documented_status_codes]

theorem db_post_none_of_undocumented (c : Int)
    (h : c ∉ documented_status_codes) : db_post_status_code_message c = none := by
  unfold db_post_status_code_message
  split <;> simp_all [documented_status_codes]

theorem db_find_none_of_undocumented (c : Int)
    (h : c ∉ documented_status_codes) : db_find_status_code_message c = none := by
  unfold db_find_status_code_message
  split <;> simp_all [documented_status_codes]

theorem db_all_docs_none_of_undocumented (c : Int)
    (h : c ∉ documented_status_codes) : db_all_docs_status_code_message c = none := by
  unfold db_all_docs_status_code_message
  split <;> simp_all [documented_status_codes]

theorem db_bulk_docs_none_of_undocumented (c : Int)
    (h : c ∉ documented_status_codes) : db_bulk_docs_status_code_message c = none := by
  unfold db_bulk_docs_status_code_message
  split <;> simp_all [documented_status_codes]

theorem all_dbs_none_of_undocumented (c : Int)
    (h : c ∉ documented_status_codes) : all_dbs_status_code_message c = none := by
  unfold all_dbs_status_code_message
  split <;> simp_all [documented_status_codes]

theorem put_db_security_none_of_undocumented (c : Int)
    (h : c ∉ documented_status_codes) : put_db_security_status_code_message c = none := by
  unfold put_db_security_status_code_message
  split <;> simp_all [documented_status_codes]

theorem put_design_none_of_undocumented (c : Int)
    (h : c ∉ documented_status_codes) : put_design_doc_status_code_message c = none := by
  unfold put_design_doc_status_code_message
  exact put_db_doc_none_of_undocumented c h

/-- The `GET /_all_dbs` table only knows codes the `GET /{db}/_all_docs`
table also knows: a code absent from the latter gives no message in the
former either. -/
theorem all_dbs_none_of_db_all_docs_none (c : Int)
    (h : db_all_docs_status_code_message c = none) :
    all_dbs_status_code_message c = none := by
  unfold all_dbs_status_code_message
  split <;>
    first
      | rfl
      | exact absurd h (by decide)

/-! Claim theorems. -/

/-- C1: the claim fails on the code.  The resolver's branch for a GET on
a two-segment path whose second segment is `_all_docs` dispatches to
`all_dbs_status_code_message` — the table documented for `GET /_all_dbs`
— instead of `db_all_docs_status_code_message`, the table whose own
documentation names `GET /{db}/_all_docs` and which nothing else calls.
At status 404 the resolver therefore returns no message, while the
`GET /{db}/_all_docs` table specifies "Requested database not found.". -/
theorem claim_C1_bug_eval :
    status_code_message_from_response
        { request := { method := "GET", urlPath := "/db1/_all_docs" },
          status_code := 404, bodyText := "" } = none ∧
    db_all_docs_status_code_message 404 = some "Requested database not found." :=
  ⟨rfl, rfl⟩

/-- C4: `status_code_message_from_response` is total and deterministic in
the (method, path, status code) triple: it always returns either a
message or no message, and its result does not depend on any other part
of the response (here, the response body). -/
theorem claim_C4_total_deterministic (method path : String) (c : Int) (b b' : String) :
    status_code_message_from_response
        { request := { method := method, urlPath := path },
          status_code := c, bodyText := b } =
      status_code_message_from_response
        { request := { method := method, urlPath := path },
          status_code := c, bodyText := b' } ∧
    (status_code_message_from_response
        { request := { method := method, urlPath := path },
          status_code := c, bodyText := b } = none ∨
      ∃ m, status_code_message_from_response
        { request := { method := method, urlPath := path },
          status_code := c, bodyText := b } = some m) := by
  refine ⟨rfl, ?_⟩
  cases h : status_code_message_from_response
      { request := { method := method, urlPath := path },
        status_code := c, bodyText := b } with
  | none => exact Or.inl rfl
  | some m => exact Or.inr ⟨m, rfl⟩

/-- C7: a PUT response on a two-segment path ending in `_security` with
status 401 resolves to the `PUT /{db}/_security` table's 401 message,
"CouchDB Server Administrator privileges required.". -/
theorem claim_C7_put_security_401 (r : Response) (db : String)
    (hm : r.request.method = "PUT")
    (hp : url_path_parts r.request.urlPath = [db, "_security"])
    (hs : r.status_code = 401) :
    status_code_message_from_response r =
      some "CouchDB Server Administrator privileges required." := by
  unfold status_code_message_from_response
  rw [hm, hp]
  split <;> simp_all [put_db_security_status_code_message]

theorem claim_C7_witness :
    status_code_message_from_response
        { request := { method := "PUT", urlPath := "/db1/_security" },
          status_code := 401, bodyText := "" } =
      some "CouchDB Server Administrator privileges required." :=
  claim_C7_put_security_401
    { request := { method := "PUT", urlPath := "/db1/_security" },
      status_code := 401, bodyText := "" } "db1" rfl rfl rfl

/-- C8: `get_db_doc_status_code_message 404` is "Document not found.",
and a GET response with status 404 on a two-segment document path (second
segment not `_all_docs`) resolves to that same string. -/
theorem claim_C8_get_doc_404 (r : Response) (db docid : String)
    (hm : r.request.method = "GET")
    (hp : url_path_parts r.request.urlPath = [db, docid])
    (hd : docid ≠ "_all_docs") (hs : r.status_code = 404) :
    get_db_doc_status_code_message 404 = some "Document not found." ∧
    status_code_message_from_response r = some "Document not found." := by
  refine ⟨rfl, ?_⟩
  unfold status_code_message_from_response
  rw [hm, hp]
  split <;> simp_all [get_db_doc_status_code_message]

theorem claim_C8_witness :
    get_db_doc_status_code_message 404 = some "Document not found." ∧
    status_code_message_from_response
        { request := { method := "GET", urlPath := "/mydb/mydoc" },
          status_code := 404, bodyText := "" } = some "Document not found." :=
  claim_C8_get_doc_404
    { request := { method := "GET", urlPath := "/mydb/mydoc" },
      status_code := 404, bodyText := "" } "mydb" "mydoc" rfl rfl (by decide) rfl

/-- C9: `put_design_doc_status_code_message` agrees with
`put_db_doc_status_code_message` on every status code, and hence the
resolver gives a PUT `/{db}/_design/{ddoc}` response exactly the message
of a PUT `/{db}/{docid}` response with the same status code. -/
theorem claim_C9_design_eq_doc (c : Int) (r r' : Response) (db ddoc db' docid : String)
    (hm : r.request.method = "PUT") (hm' : r'.request.method = "PUT")
    (hp : url_path_parts r.request.urlPath = [db, "_design", ddoc])
    (hp' : url_path_parts r'.request.urlPath = [db', docid])
    (hsec : docid ≠ "_security")
    (hs : r'.status_code = r.status_code) :
    put_design_doc_status_code_message c = put_db_doc_status_code_message c ∧
    status_code_message_from_response r = status_code_message_from_response r' := by
  refine ⟨rfl, ?_⟩
  unfold status_code_message_from_response
  rw [hm, hm', hp, hp', hs]
  split <;> simp_all [put_design_doc_status_code_message]

theorem claim_C9_witness :
    put_design_doc_status_code_message 409 = put_db_doc_status_code_message 409 ∧
    status_code_message_from_response
        { request := { method := "PUT", urlPath := "/db1/_design/dd" },
          status_code := 409, bodyText := "" } =
      status_code_message_from_response
        { request := { method := "PUT", urlPath := "/db1/doc1" },
          status_code := 409, bodyText := "" } :=
  claim_C9_design_eq_doc 409
    { request := { method := "PUT", urlPath := "/db1/_design/dd" },
      status_code := 409, bodyText := "" }
    { request := { method := "PUT", urlPath := "/db1/doc1" },
      status_code := 409, bodyText := "" }
    "db1" "dd" "db1" "doc1" rfl rfl rfl rfl (by decide) rfl

/-- C2: on a response whose status the client's `raise_for_status` treats
as an error (non-2xx), `raise_from_status_with_status_code_message`
raises a `CouchDBHTTPStatusError` carrying exactly the looked-up message
together with the original request and response whenever the resolver
finds one, and re-raises the original `HTTPStatusError` unmodified
otherwise. -/
theorem claim_C2_raise_wrapper (r : Response)
    (h : ¬ (200 ≤ r.status_code ∧ r.status_code < 300)) :
    (∀ m, status_code_message_from_response r = some m →
      raise_from_status_with_status_code_message r =
        Except.error (RaisedError.couchDBHTTPStatusError m r.request r)) ∧
    (status_code_message_from_response r = none →
      raise_from_status_with_status_code_message r =
        Except.error (RaisedError.httpStatusError r.request r)) := by
  constructor
  · intro m hm
    unfold raise_from_status_with_status_code_message raise_for_status
    rw [if_neg h, hm]
    simp [status_code_message_ne_empty r m hm]
  · intro hn
    unfold raise_from_status_with_status_code_message raise_for_status
    rw [if_neg h, hn]

theorem claim_C2_witness :
    (¬ (200 ≤ (404 : Int) ∧ (404 : Int) < 300)) ∧
    raise_from_status_with_status_code_message
        { request := { method := "GET", urlPath := "/db1/doc1" },
          status_code := 404, bodyText := "" } =
      Except.error (RaisedError.couchDBHTTPStatusError "Document not found."
        { method := "GET", urlPath := "/db1/doc1" }
        { request := { method := "GET", urlPath := "/db1/doc1" },
          status_code := 404, bodyText := "" }) :=
  ⟨by decide,
    (claim_C2_raise_wrapper
      { request := { method := "GET", urlPath := "/db1/doc1" },
        status_code := 404, bodyText := "" } (by decide)).1
      "Document not found." rfl⟩

/-- C5: `put_db_doc` issues exactly one PUT to `/{db}/{docid}` with the
JSON body and the optional query parameters forwarded unmodified, and
returns the client's result unchanged; at the spec's example inputs the
request is a PUT to `/db1/doc1` with body `{"a": 1}`. -/
theorem claim_C5_put_db_doc {R : Type} (client : ClientRequest → R)
    (db docid : String) (body : JSON) (params : Option (List (String × String))) :
    put_db_doc client db docid body params =
      client { method := "PUT", url := "/" ++ db ++ "/" ++ docid,
               params := params, json := some body } ∧
    @put_db_doc ClientRequest (fun cr => cr) "db1" "doc1"
        (JSON.obj [("a", JSON.num 1)]) none =
      { method := "PUT", url := "/db1/doc1", params := none,
        json := some (JSON.obj [("a", JSON.num 1)]) } :=
  ⟨rfl, rfl⟩

/-- C6: the claim fails on the code at `db_bulk_docs`, one of the two
functions it names: the JSON payload sent is not the caller-supplied
`documents` value but a wrapping object with added fields
(`{"docs": documents, "new_edits": new_edits}`). -/
theorem claim_C6_counterexample :
    (@db_bulk_docs ClientRequest (fun cr => cr) "db1"
        [JSON.obj [("a", JSON.num 1)]] true).json ≠
      some (JSON.arr [JSON.obj [("a", JSON.num 1)]]) := by
  intro h
  simp [db_bulk_docs] at h

/-- C6 amended: every call function — all thirteen — issues exactly one
request and returns the client's result without inspecting it, forwarding
its optional query parameters unchanged; the functions that take a JSON
body (`put_db_doc`, `db_post`, `db_find`) forward it unchanged, and
`put_design_doc`, `put_db_security` and `put_attachment` send their
record or byte argument's direct serialization; but `db_bulk_docs` sends
the wrapping object `{"docs": documents, "new_edits": new_edits}`, and
`create_user` — which takes no body — constructs the user object
`{"name": username, "password": password, "roles": roles or [],
"type": "user"}` and PUTs it to `/_users/org.couchdb.user:{username}`. -/
theorem claim_C6_amended {R : Type} (client : ClientRequest → R) (db : String)
    (documents : List JSON) (new_edits : Bool) (username password : String)
    (roles : Option (List String)) (docid : String) (body : JSON)
    (params : Option (List (String × String))) (ddoc : String)
    (design_document : DesignDocument) (security_object : SecurityObject)
    (doc_id attname : String) (data : List Nat) :
    db_bulk_docs client db documents new_edits =
      client { method := "POST", url := "/" ++ db ++ "/_bulk_docs",
               json := some (JSON.obj
                 [("docs", JSON.arr documents),
                  ("new_edits", JSON.bool new_edits)]) } ∧
    create_user client username password roles =
      client { method := "PUT", url := "/_users/org.couchdb.user:" ++ username,
               json := some (JSON.obj
                 [("name", JSON.str username),
                  ("password", JSON.str password),
                  ("roles", JSON.arr ((roles.getD []).map JSON.str)),
                  ("type", JSON.str "user")]) } ∧
    db_post client db body =
      client { method := "POST", url := "/" ++ db, json := some body } ∧
    db_find client db body =
      client { method := "POST", url := "/" ++ db ++ "/_find", json := some body } ∧
    put_db_doc client db docid body params =
      client { method := "PUT", url := "/" ++ db ++ "/" ++ docid,
               params := params, json := some body } ∧
    get_db_doc client db docid params =
      client { method := "GET", url := "/" ++ db ++ "/" ++ docid,
               params := params } ∧
    delete_db_doc client db docid params =
      client { method := "DELETE", url := "/" ++ db ++ "/" ++ docid,
               params := params } ∧
    db_all_docs client db params =
      client { method := "GET", url := "/" ++ db ++ "/_all_docs",
               params := params } ∧
    all_dbs client params =
      client { method := "GET", url := "/_all_dbs", params := params } ∧
    db_put client db params =
      client { method := "PUT", url := "/" ++ db, params := params } ∧
    put_design_doc client db ddoc design_document =
      client { method := "PUT", url := "/" ++ db ++ "/_design/" ++ ddoc,
               json := some (JSON.obj (designDocumentPairs design_document)) } ∧
    put_db_security client db security_object =
      client { method := "PUT", url := "/" ++ db ++ "/_security",
               json := some (JSON.obj
                 [("members",
                   securityObjectUserListToJSON security_object.members),
                  ("admins",
                   securityObjectUserListToJSON security_object.admins)]) } ∧
    put_attachment client db doc_id attname data =
      client { method := "PUT",
               url := "/" ++ db ++ "/" ++ doc_id ++ "/" ++ attname,
               data := some data } :=
  ⟨rfl, rfl, rfl, rfl, rfl, rfl, rfl, rfl, rfl, rfl, rfl, rfl, rfl⟩

/-- C10: `put_design_doc` serializes the design document so that the
top-level keys of the JSON body sent are exactly the fields that are not
`None`, in field order, and every such field appears with its serialized
value unchanged. -/
theorem claim_C10_design_doc_serialization {R : Type} (client : ClientRequest → R)
    (db ddoc : String) (d : DesignDocument) :
    put_design_doc client db ddoc d =
      client { method := "PUT", url := "/" ++ db ++ "/_design/" ++ ddoc,
               json := some (JSON.obj (designDocumentPairs d)) } ∧
    (designDocumentPairs d).map Prod.fst =
      ([("language", d.language.isSome),
         ("options", d.options.isSome),
         ("filters", d.filters.isSome),
         ("updates", d.updates.isSome),
         ("validate_doc_update", d.validate_doc_update.isSome),
         ("views", d.views.isSome),
         ("autoupdate", d.autoupdate.isSome)].filter
           (fun p => p.2)).map Prod.fst ∧
    (∀ s, d.language = some s →
      ("language", JSON.str s) ∈ designDocumentPairs d) ∧
    (∀ o, d.options = some o →
      ("options", viewOptionToJSON o) ∈ designDocumentPairs d) ∧
    (∀ f, d.filters = some f →
      ("filters", strMapToJSON f) ∈ designDocumentPairs d) ∧
    (∀ u, d.updates = some u →
      ("updates", strMapToJSON u) ∈ designDocumentPairs d) ∧
    (∀ s, d.validate_doc_update = some s →
      ("validate_doc_update", JSON.str s) ∈ designDocumentPairs d) ∧
    (∀ v, d.views = some v →
      ("views", JSON.obj (v.map (fun p => (p.1, viewToJSON p.2)))) ∈
        designDocumentPairs d) ∧
    (∀ b, d.autoupdate = some b →
      ("autoupdate", JSON.bool b) ∈ designDocumentPairs d) := by
  obtain ⟨l, o, f, u, vd, v, a⟩ := d
  refine ⟨rfl, ?_, ?_, ?_, ?_, ?_, ?_, ?_, ?_⟩
  · cases l <;> cases o <;> cases f <;> cases u <;> cases vd <;> cases v <;>
      cases a <;> rfl
  · intro s hs
    cases l <;> simp_all [designDocumentPairs]
  · intro x hx
    cases o <;> simp_all [designDocumentPairs]
  · intro x hx
    cases f <;> simp_all [designDocumentPairs]
  · intro x hx
    cases u <;> simp_all [designDocumentPairs]
  · intro x hx
    cases vd <;> simp_all [designDocumentPairs]
  · intro x hx
    cases v <;> simp_all [designDocumentPairs]
  · intro x hx
    cases a <;> simp_all [designDocumentPairs]

theorem claim_C10_witness :
    ("language", JSON.str "javascript") ∈
      designDocumentPairs { language := some "javascript" } :=
  (claim_C10_design_doc_serialization (fun cr => cr) "db1" "dd"
    { language := some "javascript" }).2.2.1 "javascript" rfl

/-- C3: every (method, path-shape, status-code) combination absent from
the lookup tables resolves to no message: methods other than
GET/PUT/POST/DELETE; segment counts the method's dispatch does not handle
(GET and POST with zero or at least three segments, PUT with zero or at
least four, PUT on three segments not through `_design`, DELETE with any
count other than two, a single GET segment other than `_all_dbs`, a POST
second segment other than `_bulk_docs`/`_find`); status codes appearing
in no table at all; and status codes absent from the table the dispatch
selects for the path shape. -/
theorem claim_C3_unrecognized_none (r : Response) :
    (r.request.method ≠ "GET" → r.request.method ≠ "PUT" →
      r.request.method ≠ "POST" → r.request.method ≠ "DELETE" →
      status_code_message_from_response r = none) ∧
    (r.request.method = "GET" →
      url_path_parts r.request.urlPath = [] ∨
        3 ≤ (url_path_parts r.request.urlPath).length →
      status_code_message_from_response r = none) ∧
    (r.request.method = "GET" → ∀ p0, url_path_parts r.request.urlPath = [p0] →
      p0 ≠ "_all_dbs" → status_code_message_from_response r = none) ∧
    (r.request.method = "PUT" →
      url_path_parts r.request.urlPath = [] ∨
        4 ≤ (url_path_parts r.request.urlPath).length →
      status_code_message_from_response r = none) ∧
    (r.request.method = "PUT" →
      ∀ p0 p1 p2, url_path_parts r.request.urlPath = [p0, p1, p2] →
      p1 ≠ "_design" → status_code_message_from_response r = none) ∧
    (r.request.method = "POST" →
      url_path_parts r.request.urlPath = [] ∨
        3 ≤ (url_path_parts r.request.urlPath).length →
      status_code_message_from_response r = none) ∧
    (r.request.method = "POST" →
      ∀ p0 p1, url_path_parts r.request.urlPath = [p0, p1] →
      p1 ≠ "_bulk_docs" → p1 ≠ "_find" →
      status_code_message_from_response r = none) ∧
    (r.request.method = "DELETE" → (url_path_parts r.request.urlPath).length ≠ 2 →
      status_code_message_from_response r = none) ∧
    (r.status_code ∉ documented_status_codes →
      status_code_message_from_response r = none) ∧
    (r.request.method = "GET" →
      ∀ p0 p1, url_path_parts r.request.urlPath = [p0, p1] → p1 ≠ "_all_docs" →
      get_db_doc_status_code_message r.status_code = none →
      status_code_message_from_response r = none) ∧
    (r.request.method = "GET" →
      ∀ p0, url_path_parts r.request.urlPath = [p0, "_all_docs"] →
      db_all_docs_status_code_message r.status_code = none →
      status_code_message_from_response r = none) ∧
    (r.request.method = "PUT" →
      ∀ p0 p1, url_path_parts r.request.urlPath = [p0, p1] → p1 ≠ "_security" →
      put_db_doc_status_code_message r.status_code = none →
      status_code_message_from_response r = none) ∧
    (r.request.method = "DELETE" →
      ∀ p0 p1, url_path_parts r.request.urlPath = [p0, p1] →
      delete_db_doc_status_code_message r.status_code = none →
      status_code_message_from_response r = none) ∧
    (r.request.method = "GET" →
      url_path_parts r.request.urlPath = ["_all_dbs"] →
      all_dbs_status_code_message r.status_code = none →
      status_code_message_from_response r = none) ∧
    (r.request.method = "PUT" →
      ∀ p0, url_path_parts r.request.urlPath = [p0] →
      db_put_status_code_message r.status_code = none →
      status_code_message_from_response r = none) ∧
    (r.request.method = "PUT" →
      ∀ p0, url_path_parts r.request.urlPath = [p0, "_security"] →
      put_db_security_status_code_message r.status_code = none →
      status_code_message_from_response r = none) ∧
    (r.request.method = "PUT" →
      ∀ p0 p2, url_path_parts r.request.urlPath = [p0, "_design", p2] →
      put_design_doc_status_code_message r.status_code = none →
      status_code_message_from_response r = none) ∧
    (r.request.method = "POST" →
      ∀ p0, url_path_parts r.request.urlPath = [p0] →
      db_post_status_code_message r.status_code = none →
      status_code_message_from_response r = none) ∧
    (r.request.method = "POST" →
      ∀ p0, url_path_parts r.request.urlPath = [p0, "_bulk_docs"] →
      db_bulk_docs_status_code_message r.status_code = none →
      status_code_message_from_response r = none) ∧
    (r.request.method = "POST" →
      ∀ p0, url_path_parts r.request.urlPath = [p0, "_find"] →
      db_find_status_code_message r.status_code = none →
      status_code_message_from_response r = none) := by
  refine ⟨?_, ?_, ?_, ?_, ?_, ?_, ?_, ?_, ?_, ?_, ?_, ?_, ?_, ?_, ?_, ?_, ?_, ?_,
    ?_, ?_⟩
  · intro hG hP hPo hD
    unfold status_code_message_from_response
    split <;> simp_all
  · intro hm hp
    unfold status_code_message_from_response
    rw [hm]
    rcases hp with hp | hp
    · rw [hp]
      rfl
    · split <;> try simp_all
      all_goals split <;> simp_all
  · intro hm p0 hp h0
    unfold status_code_message_from_response
    rw [hm, hp]
    split <;> simp_all
  · intro hm hp
    unfold status_code_message_from_response
    rw [hm]
    rcases hp with hp | hp
    · rw [hp]
      rfl
    · split <;> try simp_all
      all_goals split <;> simp_all
  · intro hm p0 p1 p2 hp h1
    unfold status_code_message_from_response
    rw [hm, hp]
    split <;> simp_all
  · intro hm hp
    unfold status_code_message_from_response
    rw [hm]
    rcases hp with hp | hp
    · rw [hp]
      rfl
    · split <;> try simp_all
      all_goals split <;> simp_all
  · intro hm p0 p1 hp h1 h2
    unfold status_code_message_from_response
    rw [hm, hp]
    split <;> simp_all
  · intro hm hl
    unfold status_code_message_from_response
    rw [hm]
    split <;> try simp_all
    all_goals split <;> simp_all
  · intro hs
    unfold status_code_message_from_response
    split <;> try rfl
    all_goals (split <;> try rfl)
    all_goals try (split <;> try rfl)
    all_goals
      first
        | exact get_db_doc_none_of_undocumented _ hs
        | exact put_db_doc_none_of_undocumented _ hs
        | exact delete_db_doc_none_of_undocumented _ hs
        | exact db_put_none_of_undocumented _ hs
        | exact db_post_none_of_undocumented _ hs
        | exact db_find_none_of_undocumented _ hs
        | exact db_all_docs_none_of_undocumented _ hs
        | exact db_bulk_docs_none_of_undocumented _ hs
        | exact all_dbs_none_of_undocumented _ hs
        | exact put_db_security_none_of_undocumented _ hs
  · intro hm p0 p1 hp h1 ht
    unfold status_code_message_from_response
    rw [hm, hp]
    split <;> simp_all
  · intro hm p0 hp ht
    unfold status_code_message_from_response
    rw [hm, hp]
    have := all_dbs_none_of_db_all_docs_none r.status_code ht
    split <;> simp_all
  · intro hm p0 p1 hp h1 ht
    unfold status_code_message_from_response
    rw [hm, hp]
    split <;> simp_all
  · intro hm p0 p1 hp ht
    unfold status_code_message_from_response
    rw [hm, hp]
    split <;> simp_all
  · intro hm hp ht
    unfold status_code_message_from_response
    rw [hm, hp]
    split <;> simp_all
  · intro hm p0 hp ht
    unfold status_code_message_from_response
    rw [hm, hp]
    split <;> simp_all
  · intro hm p0 hp ht
    unfold status_code_message_from_response
    rw [hm, hp]
    split <;> simp_all
  · intro hm p0 p2 hp ht
    unfold status_code_message_from_response
    rw [hm, hp]
    split <;> simp_all [put_design_doc_status_code_message]
  · intro hm p0 hp ht
    unfold status_code_message_from_response
    rw [hm, hp]
    split <;> simp_all
  · intro hm p0 hp ht
    unfold status_code_message_from_response
    rw [hm, hp]
    split <;> simp_all
  · intro hm p0 hp ht
    unfold status_code_message_from_response
    rw [hm, hp]
    split <;> simp_all

theorem claim_C3_witness :
    status_code_message_from_response
        { request := { method := "PATCH", urlPath := "/db1/doc1" },
          status_code := 404, bodyText := "" } = none :=
  (claim_C3_unrecognized_none
    { request := { method := "PATCH", urlPath := "/db1/doc1" },
      status_code := 404, bodyText := "" }).1
    (by decide) (by decide) (by decide) (by decide)

end CouchDBApi
